import Mathlib

set_option maxHeartbeats 1000000
set_option maxRecDepth 8000

/-
Verification development for the astOS snapshot-tree orchestration core
(astpk.py).  The definitions below are a shallow embedding of the source:
snapshot bundles are four correlated members (rootfs, var, etc, boot) per
integer id, the volume store is a list of (member, id) pairs together with
the rootfs lineage relation and the default-boot pointer, and every external
side effect (lock-file flock, external command invocation) is recorded in an
event trace.  Python-level control flow that the source relies on - the
`except Exception:` class test, the with-statement protocol, process
replacement by os.execvp - is modelled explicitly.
-/

/-- Python exceptions relevant to astpk.py: the TypeError raised by a
with-statement whose context expression lacks the context-manager protocol,
and SystemExit as raised by sys.exit(code) inside utils.die. -/
inductive PyExc
  | typeError
  | systemExit (code : Int)
deriving DecidableEq

/-- Class test performed by an `except Exception:` handler.  SystemExit
derives from BaseException but not from Exception, so such a handler does
not catch it and it keeps propagating. -/
def PyExc.isException : PyExc → Bool
  | .systemExit _ => false
  | _ => true

/-- Result of running a piece of Python code: normal value or a raised
exception propagating out. -/
inductive PyResult (α : Type)
  | ok (a : α)
  | exc (e : PyExc)
deriving DecidableEq

/-- The four bundle-member namespaces of a snapshot id, corresponding to the
ROOTFS, VAR, ETC and BOOT directories of astpk.py. -/
inductive Member
  | rootfs
  | var
  | etc
  | boot
deriving DecidableEq

/-- utils.snapshot_path / utils.var_path / utils.etc_path / utils.boot_path:
the filesystem path of member kind m of snapshot i. -/
def member_path (m : Member) (i : Int) : String :=
  match m with
  | .rootfs => "/.snapshots/rootfs/snapshot-" ++ toString i
  | .var => "/.snapshots/var/var-" ++ toString i
  | .etc => "/.snapshots/etc/etc-" ++ toString i
  | .boot => "/.snapshots/boot/boot-" ++ toString i

/-- Observable events of a run: taking and dropping the LOCK_FILE flock, and
invoking an external command via utils.run. -/
inductive Event
  | acquireLock
  | releaseLock
  | run (c : List String)
deriving DecidableEq

/-- The volume store plus the run's event trace.  `members` is the set of
existing bundle-member subvolumes (a filesystem path is unique, so the list
is read as a set); `lineage` records (child, parent) pairs of rootfs ids as
assigned by the CoW store at clone time (the parent_uuid relation that
utils.get_children reads); `deployedId` is the store's default boot target
as read back by `btrfs subvolume get-default`. -/
structure Store where
  members : List (Member × Int)
  lineage : List (Int × Int)
  deployedId : Int
  trace : List Event
deriving DecidableEq

/-- Python max(list, default=d): the maximum of the elements, or d when the
list is empty. -/
def pymax (l : List Int) (d : Int) : Int :=
  match l with
  | [] => d
  | x :: xs => xs.foldl max x

/-- The ids enumerated by globbing ROOTFS/snapshot-* and parsing the integer
after the dash: exactly the ids of the existing rootfs members. -/
def globIds (st : Store) : List Int :=
  st.members.filterMap (fun p => if p.1 = Member.rootfs then some p.2 else none)

/-- utils.next_snapshot_id, as a function of the enumerated ids:
max(ids, default=-1) + 1. -/
def next_snapshot_id (ids : List Int) : Int := pymax ids (-1) + 1

/-- utils.next_snapshot_id as executed: open LOCK_FILE, flock it (LOCK_EX),
enumerate the rootfs ids, compute the id; the file object closes when its
with-block exits, releasing the flock. -/
def next_snapshot_id_run (st : Store) : Store × Int :=
  ({ st with trace := st.trace ++ [Event.acquireLock, Event.releaseLock] },
   next_snapshot_id (globIds st))

/-- utils.get_children: the ids of the subvolumes whose parent lineage
identifier is snap_id's rootfs subvolume.  Only rootfs clones descend from
rootfs subvolumes (var/etc/boot clones descend from their own namespaces),
and every modeled subvolume name parses as an integer, so this is exactly
the recorded rootfs lineage relation restricted to parent snap_id. -/
def get_children (st : Store) (snap_id : Int) : List Int :=
  (st.lineage.filter (fun p => p.2 == snap_id)).map (fun p => p.1)

/-- btrfs_snapshot(src, dst): refuse via utils.die - i.e. SystemExit(1) -
when the destination already exists, before invoking any clone primitive;
otherwise run `btrfs subvolume snapshot -r src dst`, which creates the
destination member; a rootfs clone also acquires the CoW lineage metadata
(dst becomes a child of src).  The dst.parent.mkdir call is directory
bookkeeping with no effect on the store and is not modelled. -/
def btrfs_snapshot (st : Store) (m : Member) (src dst : Int) : Store × PyResult Unit :=
  if (m, dst) ∈ st.members then
    (st, .exc (.systemExit 1))
  else
    ({ st with
        members := (m, dst) :: st.members,
        lineage := if m = Member.rootfs then st.lineage ++ [(dst, src)] else st.lineage,
        trace := st.trace ++
          [Event.run ["btrfs", "subvolume", "snapshot", "-r", member_path m src, member_path m dst]] },
     .ok ())

/-- Sequencing of two statements with exception propagation: the second runs
only if the first completed normally. -/
def seqSt (r : Store × PyResult Unit) (f : Store → Store × PyResult Unit) : Store × PyResult Unit :=
  match r with
  | (st, .ok _) => f st
  | (st, .exc e) => (st, .exc e)

/-- The four member clones of actions.clone (and of actions._clone_recursive),
in source order rootfs, var, etc, boot, with utils.die's SystemExit
propagating past the remaining calls. -/
def cloneBody (st : Store) (src dst : Int) : Store × PyResult Unit :=
  seqSt (btrfs_snapshot st Member.rootfs src dst) (fun s1 =>
    seqSt (btrfs_snapshot s1 Member.var src dst) (fun s2 =>
      seqSt (btrfs_snapshot s2 Member.etc src dst) (fun s3 =>
        btrfs_snapshot s3 Member.boot src dst)))

/-- A Python object as seen by a with-statement: whether it implements the
context-manager protocol (has type-level __enter__/__exit__). -/
structure CtxObj where
  hasEnterExit : Bool

/-- The object produced by evaluating `lock()`: lock is a generator function
(it contains `yield` and carries no contextmanager decorator), so the call
merely builds a generator object, which has no __enter__/__exit__ and whose
body (open, flock, yield, close) does not start executing. -/
def lockCall : CtxObj := ⟨false⟩

/-- Python with-statement semantics: evaluate the context expression, then
demand the context-manager protocol, raising TypeError before the body runs
if the object does not support it. -/
def withSt (cm : CtxObj) (body : Store → Store × PyResult Unit) (st : Store) : Store × PyResult Unit :=
  if cm.hasEnterExit then body st else (st, .exc .typeError)

/-- With-statement semantics for a body whose recursion is fuel-bounded
(`none` means the fuel bound was reached inside the body). -/
def withStF (cm : CtxObj) (body : Store → Option (Store × PyResult Unit)) (st : Store) :
    Option (Store × PyResult Unit) :=
  if cm.hasEnterExit then body st else some (st, .exc .typeError)

/-- actions.clone: dst is allocated by utils.next_snapshot_id before the
with-statement, then `with lock():` wraps the four member clones. -/
def clone (st : Store) (src : Int) : Store × PyResult Unit :=
  match next_snapshot_id_run st with
  | (st1, dst) => withSt lockCall (fun s => cloneBody s src dst) st1

/-- actions.branch: reads one id from utils.next_snapshot_id (used only for
its message) and then delegates to actions.clone, which allocates again. -/
def branch (st : Store) (parent : Int) : Store × PyResult Unit :=
  match next_snapshot_id_run st with
  | (st1, _) => clone st1 parent

mutual

/-- actions._clone_recursive: allocate new_id via utils.next_snapshot_id,
clone the four members of snap_id into new_id, then loop over
utils.get_children(snap_id) - queried on the store as it is NOW, after the
clone just performed - recursing into each child.  The Nat argument is a
step bound; `none` means the bound was reached, so a run that returns `none`
for every bound is a non-terminating run. -/
def cloneRecursive (fuel : Nat) (st : Store) (snap_id : Int) : Option (Store × PyResult Int) :=
  match fuel with
  | 0 => none
  | Nat.succ f =>
    match next_snapshot_id_run st with
    | (st0, new_id) =>
      match cloneBody st0 snap_id new_id with
      | (st1, .exc e) => some (st1, .exc e)
      | (st1, .ok _) =>
        match cloneList f st1 (get_children st1 snap_id) with
        | none => none
        | some (st2, .exc e) => some (st2, .exc e)
        | some (st2, .ok _) => some (st2, .ok new_id)
termination_by fuel

/-- The child loop of actions._clone_recursive, burning one fuel unit per
recursive clone. -/
def cloneList (fuel : Nat) (st : Store) (cs : List Int) : Option (Store × PyResult Unit) :=
  match fuel, cs with
  | _, [] => some (st, .ok ())
  | 0, _ :: _ => none
  | Nat.succ f, c :: rest =>
    match cloneRecursive f st c with
    | none => none
    | some (st1, .exc e) => some (st1, .exc e)
    | some (st1, .ok _) => cloneList f st1 rest
termination_by fuel

end

/-- actions.clone_tree: `with lock(): _clone_recursive(root_id, None)`. -/
def clone_tree (fuel : Nat) (st : Store) (root : Int) : Option (Store × PyResult Unit) :=
  withStF lockCall (fun s =>
    match cloneRecursive fuel s root with
    | none => none
    | some (st1, .exc e) => some (st1, .exc e)
    | some (st1, .ok _) => some (st1, .ok ())) st

/-- utils.run with check=True: the invocation is recorded; `ext` tells which
external commands exit zero.  On a non-zero exit, subprocess raises
CalledProcessError, utils.run catches it and calls utils.die, which raises
SystemExit(1). -/
def utilsRunE (ext : List String → Bool) (st : Store) (c : List String) : Store × PyResult Unit :=
  let st1 := { st with trace := st.trace ++ [Event.run c] }
  if ext c then (st1, .ok ()) else (st1, .exc (.systemExit 1))

/-- The set-default command issued by actions.deploy for a snapshot id. -/
def setDefaultCmd (snap_id : Int) : List String :=
  ["btrfs", "subvolume", "set-default", member_path Member.rootfs snap_id, "/"]

/-- The bootloader-configuration-generator command issued by actions.deploy. -/
def grubMkconfigCmd : List String :=
  ["grub-mkconfig", "-o", "/boot/grub/grub.cfg"]

/-- Body of actions.deploy: set the default subvolume (on success the volume
store's default pointer becomes snap_id), then regenerate the boot menu. -/
def deployBody (ext : List String → Bool) (snap_id : Int) (st : Store) : Store × PyResult Unit :=
  match utilsRunE ext st (setDefaultCmd snap_id) with
  | (st1, .exc e) => (st1, .exc e)
  | (st1, .ok _) => utilsRunE ext { st1 with deployedId := snap_id } grubMkconfigCmd

/-- actions.deploy: `with lock():` around the two deployment steps. -/
def deploy (ext : List String → Bool) (snap_id : Int) (st : Store) : Store × PyResult Unit :=
  withSt lockCall (deployBody ext snap_id) st

/-- Body of actions.base_update: pacman -Syu, delete snapshot-0 if present,
then snapshot "/" as the new base.  The base snapshot is taken directly (not
via btrfs_snapshot): no -r flag and no rootfs lineage entry. -/
def baseUpdateBody (ext : List String → Bool) (st : Store) : Store × PyResult Unit :=
  seqSt (utilsRunE ext st ["pacman", "-Syu", "--noconfirm"]) (fun s1 =>
    seqSt
      (if (Member.rootfs, (0 : Int)) ∈ s1.members then
        seqSt (utilsRunE ext s1 ["btrfs", "subvolume", "delete", member_path Member.rootfs 0])
          (fun s2 =>
            ({ s2 with members := s2.members.filter (fun p => !(p == (Member.rootfs, (0 : Int)))) },
             .ok ()))
      else (s1, .ok ()))
      (fun s3 =>
        seqSt (utilsRunE ext s3 ["btrfs", "subvolume", "snapshot", "/", member_path Member.rootfs 0])
          (fun s4 => ({ s4 with members := (Member.rootfs, (0 : Int)) :: s4.members }, .ok ()))))

/-- actions.base_update: `with lock():` around the base refresh. -/
def base_update (ext : List String → Bool) (st : Store) : Store × PyResult Unit :=
  withSt lockCall (baseUpdateBody ext) st

/-- Membership in keep = set(range(deployed - 2, deployed + 3)) | {deployed}. -/
def gcKeep (deployed sid : Int) : Bool :=
  (decide (deployed - 2 ≤ sid) && decide (sid < deployed + 3)) || decide (sid = deployed)

/-- Python sorted() on integer lists: ascending insertion sort. -/
def insertSorted (x : Int) : List Int → List Int
  | [] => [x]
  | y :: ys => if x ≤ y then x :: y :: ys else y :: insertSorted x ys

/-- Python sorted() on integer lists. -/
def sortInts (l : List Int) : List Int := l.foldr insertSorted []

/-- One best-effort `btrfs subvolume delete` (check=False): the command is
attempted and removes the member when it exists; a failure is non-fatal. -/
def deleteSubvol (st : Store) (m : Member) (sid : Int) : Store :=
  { st with
      trace := st.trace ++ [Event.run ["btrfs", "subvolume", "delete", member_path m sid]],
      members := st.members.filter (fun p => !(p == (m, sid))) }

/-- The four member deletions actions.gc performs for one collected id. -/
def gcDeleteBundle (st : Store) (sid : Int) : Store :=
  deleteSubvol (deleteSubvol (deleteSubvol (deleteSubvol st Member.rootfs sid) Member.var sid)
    Member.etc sid) Member.boot sid

/-- Body of actions.gc: read the deployed id from `btrfs subvolume
get-default /` (the store's default pointer, whose path's trailing integer
is the id), enumerate the sorted snapshot ids excluding snapshot-0, and
delete every bundle whose id is outside the keep window. -/
def gcBody (st : Store) : Store × PyResult Unit :=
  let st1 := { st with trace := st.trace ++ [Event.run ["btrfs", "subvolume", "get-default", "/"]] }
  let deployed := st1.deployedId
  let all_ids := sortInts ((globIds st1).filter (fun sid => !(sid == 0)))
  (all_ids.foldl (fun s sid => if gcKeep deployed sid then s else gcDeleteBundle s sid) st1, .ok ())

/-- actions.gc: `with lock():` around the collection pass. -/
def gc (st : Store) : Store × PyResult Unit :=
  withSt lockCall gcBody st

/-- Exit modes of actions.chroot: the process image replaced by a successful
os.execvp (no further Python code, including finally blocks, ever runs in
this process), utils.die before the try block, or an exception propagating
out after the finally block ran. -/
inductive ChrootOutcome
  | replaced
  | died
  | raised
deriving DecidableEq

/-- Observable outcome of one actions.chroot session: which mount targets
remain mounted when the orchestrator is done, which umount commands it
issued, and how it exited. -/
structure ChrootResult where
  mountedAfter : List String
  umountCmds : List (List String)
  outcome : ChrootOutcome
deriving DecidableEq

/-- The snapshot root used by actions.chroot. -/
def chrootRoot (snap_id : Int) : String := member_path Member.rootfs snap_id

/-- Bind-mount targets of actions.chroot in mount order: var, etc, proc,
dev.  The proc entry's tuple has length 4, so the `len(m) == 5` branch is
never taken and proc, too, goes through `mount --bind`. -/
def chrootMountTargets (snap_id : Int) : List String :=
  [chrootRoot snap_id ++ "/var", chrootRoot snap_id ++ "/etc",
   chrootRoot snap_id ++ "/proc", chrootRoot snap_id ++ "/dev"]

/-- actions.chroot: perform the four bind mounts, then `mount --make-rslave
root/sys` (check=True: if it fails, utils.die exits before the try block and
nothing is unmounted); then os.execvp("chroot", ...).  On exec success the
process image is replaced, so the try/finally teardown never executes and
the binds stay mounted.  On exec failure the finally block unmounts the
reversed mount list plus root/sys, each best-effort, and the exception then
propagates. -/
def chroot (rslaveOk execOk : Bool) (snap_id : Int) : ChrootResult :=
  let mounted := chrootMountTargets snap_id
  if !rslaveOk then { mountedAfter := mounted, umountCmds := [], outcome := .died }
  else if execOk then { mountedAfter := mounted, umountCmds := [], outcome := .replaced }
  else
    let targets := mounted.reverse ++ [chrootRoot snap_id ++ "/sys"]
    { mountedAfter := targets.foldl (fun acc t => acc.filter (fun x => !(x == t))) mounted,
      umountCmds := targets.map (fun t => ["umount", t]),
      outcome := .raised }

/-- utils.run for the per-snapshot command of actions.tree_run: a non-zero
exit becomes CalledProcessError inside utils.run, which catches it and calls
utils.die, raising SystemExit(1). -/
def utilsRunCheck (ok : Bool) : PyResult Unit :=
  if ok then .ok () else .exc (.systemExit 1)

/-- actions._walk_tree: explicit-stack depth-first traversal.  Python
list.append/list.pop operate at the end of the list; here the head of the
stack is its top, so a node's children are reversed onto the top. -/
def walkTree (children : Int → List Int) : Nat → List Int → List Int → List Int
  | 0, _, visited => visited
  | Nat.succ f, stack, visited =>
    match stack with
    | [] => visited
    | cur :: rest => walkTree children f ((children cur).reverse ++ rest) (visited ++ [cur])

/-- The visitation loop of actions.tree_run.  An exception escaping
utils.run is caught by the loop's `except Exception:` only when its class
derives from Exception (PyExc.isException); SystemExit does not, so it
propagates and aborts the loop.  Returns the ids on which the command was
actually invoked, together with the loop's result. -/
def tree_run_loop (failFast : Bool) (cmdOk : Int → Bool) : List Int → List Int × PyResult Unit
  | [] => ([], .ok ())
  | sid :: rest =>
    match utilsRunCheck (cmdOk sid) with
    | .ok _ =>
      let r := tree_run_loop failFast cmdOk rest
      (sid :: r.1, r.2)
    | .exc e =>
      if e.isException then
        if failFast then ([sid], .exc (.systemExit 1))
        else
          let r := tree_run_loop failFast cmdOk rest
          (sid :: r.1, r.2)
      else ([sid], .exc e)

/-- actions.tree_run: walk the subtree of root, then run the command on each
visited id in order. -/
def tree_run (children : Int → List Int) (fuel : Nat) (failFast : Bool) (cmdOk : Int → Bool)
    (root : Int) : List Int × PyResult Unit :=
  tree_run_loop failFast cmdOk (walkTree children fuel [root] [])

/-- One allocation-plus-materialized-clone step of spec section 4.1's
critical section: utils.next_snapshot_id over the current rootfs ids,
followed by the clone that creates snapshot-(allocated id). -/
def allocStep (S : List Int) : List Int := next_snapshot_id S :: S

/-- N successive allocation-plus-clone operations starting from an empty
store; the resulting list holds every allocated id. -/
def allocSeq : Nat → List Int
  | 0 => []
  | Nat.succ n => allocStep (allocSeq n)

/-- The descending integer list n-1, ..., 1, 0. -/
def idsDesc (n : Nat) : List Int :=
  (List.range n).reverse.map (fun k => (k : Int))

/-- True unless the event is an external command missing the -r (readonly
creation) flag. -/
def cmdHasReadonlyFlag : Event → Bool
  | .run c => c.contains ("-r")
  | _ => true

/-- Helper for noNested: scan a trace carrying the number of currently held
acquisitions of the lock file. -/
def noNestedAux : List Event → Nat → Bool
  | [], _ => true
  | Event.acquireLock :: es, held => (held == 0) && noNestedAux es (held + 1)
  | Event.releaseLock :: es, held => noNestedAux es (held - 1)
  | Event.run _ :: es, held => noNestedAux es held

/-- A trace never acquires the lock file while an earlier acquisition of it
is still held. -/
def noNested (t : List Event) : Bool := noNestedAux t 0

/-- Bundle consistency: var, etc and boot members exist for an id exactly
when the rootfs member does (the bundle invariant of spec section 3). -/
def Consistent (st : Store) : Prop :=
  ∀ i : Int,
    (((Member.var, i) ∈ st.members) ↔ ((Member.rootfs, i) ∈ st.members)) ∧
    (((Member.etc, i) ∈ st.members) ↔ ((Member.rootfs, i) ∈ st.members)) ∧
    (((Member.boot, i) ∈ st.members) ↔ ((Member.rootfs, i) ∈ st.members))

/-- The four members of one bundle id. -/
def bundle (i : Int) : List (Member × Int) :=
  [(Member.rootfs, i), (Member.var, i), (Member.etc, i), (Member.boot, i)]

/-- The members of a list of bundle ids. -/
def bundles (l : List Int) : List (Member × Int) := l.flatMap bundle

/-- Concrete store for the GC scenario of the spec: deployed id 10, existing
bundles 0, 5, 8, 9, 10, 11, 12, 13, 20. -/
def st10 : Store :=
  { members := bundles [0, 5, 8, 9, 10, 11, 12, 13, 20], lineage := [],
    deployedId := 10, trace := [] }

/-- Concrete store with the base bundle 0 and a single further bundle 1 that
has no children: the smallest tree one can ask clone_tree to copy. -/
def stPair : Store :=
  { members := bundles [0, 1], lineage := [(1, 0)], deployedId := 0, trace := [] }

/-- Concrete store holding a bundle 7 (for conflict scenarios). -/
def stW : Store :=
  { members := bundle 7, lineage := [], deployedId := 0, trace := [] }

/-- Concrete empty store. -/
def stEmpty : Store :=
  { members := [], lineage := [], deployedId := 0, trace := [] }

/-- Concrete chain tree for tree_run: 1 has child 2, 2 has child 3. -/
def treeChildren : Int → List Int :=
  fun i => if i = 1 then [2] else if i = 2 then [3] else []

/-- A command outcome map that fails exactly on snapshot 2. -/
def failOn2 : Int → Bool := fun i => !(i == 2)

/-- The readonly rootfs clone command from snapshot 0 to snapshot 1, as
emitted by btrfs_snapshot. -/
def e0 : Event :=
  Event.run ["btrfs", "subvolume", "snapshot", "-r", member_path Member.rootfs 0,
    member_path Member.rootfs 1]

/-- C5: every operation that enters a `with lock():` block - clone,
clone_tree, deploy, base_update, gc - raises TypeError at the with-statement
because lock() returns a plain generator object without the context-manager
protocol, so the operation terminates with an error before performing any
volume-store mutation and the snapshot store (members, lineage, default
pointer) is left unchanged. -/
theorem lock_typeerror_all_ops :
    (∀ st src, (clone st src).2 = PyResult.exc PyExc.typeError ∧
      (clone st src).1.members = st.members ∧ (clone st src).1.lineage = st.lineage ∧
      (clone st src).1.deployedId = st.deployedId) ∧
    (∀ fuel st root, clone_tree fuel st root = some (st, PyResult.exc PyExc.typeError)) ∧
    (∀ ext id st, deploy ext id st = (st, PyResult.exc PyExc.typeError)) ∧
    (∀ ext st, base_update ext st = (st, PyResult.exc PyExc.typeError)) ∧
    (∀ st, gc st = (st, PyResult.exc PyExc.typeError)) := by
  exact ⟨fun st src => ⟨rfl, rfl, rfl, rfl⟩, fun fuel st root => rfl,
    fun ext id st => rfl, fun ext st => rfl, fun st => rfl⟩

/-- C1: evaluation at the spec's GC scenario (deployed id 10, existing ids
0, 5, 8, 9, 10, 11, 12, 13, 20).  actions.gc raises TypeError at its
`with lock():` entry and deletes nothing, so 5, 13 and 20 survive, contrary
to the claim; the retention computation in the unreachable body would have
retained exactly the bundles 0, 8, 9, 10, 11, 12, as the claim describes. -/
theorem gc_lock_bug_eval :
    gc st10 = (st10, PyResult.exc PyExc.typeError) ∧
    (gcBody st10).1.members = bundles [0, 8, 9, 10, 11, 12] ∧
    (gcBody st10).2 = PyResult.ok () := by
  refine ⟨rfl, ?_, rfl⟩
  decide

/-- C2: evaluation on the chain tree 1 -> 2 -> 3 with the command failing on
snapshot 2.  The walk visits 1, 2, 3; but a command failure makes utils.run
raise SystemExit (via utils.die), which `except Exception:` cannot catch, so
with --fail-fast absent the run still aborts after id 2 and id 3 is never
executed (identically with --fail-fast present); with an always-succeeding
command all three ids run and the operation succeeds. -/
theorem tree_run_systemexit_eval :
    walkTree treeChildren 10 [1] [] = [1, 2, 3] ∧
    tree_run treeChildren 10 false failOn2 1 = ([1, 2], PyResult.exc (PyExc.systemExit 1)) ∧
    tree_run treeChildren 10 true failOn2 1 = ([1, 2], PyResult.exc (PyExc.systemExit 1)) ∧
    tree_run treeChildren 10 false (fun _ => true) 1 = ([1, 2, 3], PyResult.ok ()) := by
  refine ⟨by decide, by decide, by decide, by decide⟩

/-- C4: evaluation of the confined-execution session on snapshot 3.  On the
normal path (os.execvp succeeds) the process image is replaced, the
try/finally teardown never runs, and all four bind mounts remain mounted -
contradicting the teardown-on-every-exit-path contract.  Only when execvp
itself raises does the finally block run, unmounting in strict reverse
order of mounting (dev, proc, etc, var, then sys). -/
theorem chroot_leak_eval :
    (chroot true true 3).outcome = ChrootOutcome.replaced ∧
    (chroot true true 3).mountedAfter = chrootMountTargets 3 ∧
    chrootMountTargets 3 ≠ [] ∧
    (chroot true true 3).umountCmds = [] ∧
    (chroot true false 3).mountedAfter = [] ∧
    (chroot true false 3).umountCmds =
      [["umount", chrootRoot 3 ++ "/dev"], ["umount", chrootRoot 3 ++ "/proc"],
       ["umount", chrootRoot 3 ++ "/etc"], ["umount", chrootRoot 3 ++ "/var"],
       ["umount", chrootRoot 3 ++ "/sys"]] := by
  refine ⟨rfl, by decide, by decide, rfl, by decide, by decide⟩

/-- A foldl of max dominates its accumulator and every element. -/
theorem le_foldl_max (l : List Int) : ∀ a : Int,
    a ≤ l.foldl max a ∧ ∀ x ∈ l, x ≤ l.foldl max a := by
  induction l with
  | nil => intro a; exact ⟨le_refl a, by intro x hx; cases hx⟩
  | cons y ys ih =>
    intro a
    have h := ih (max a y)
    simp only [List.foldl_cons]
    refine ⟨le_trans (le_max_left a y) h.1, ?_⟩
    intro x hx
    rcases List.mem_cons.mp hx with h1 | h1
    · subst h1; exact le_trans (le_max_right a x) h.1
    · exact h.2 x h1

/-- Python max dominates every element of the list. -/
theorem pymax_ge (l : List Int) (d x : Int) (hx : x ∈ l) : x ≤ pymax l d := by
  cases l with
  | nil => cases hx
  | cons y ys =>
    simp only [pymax]
    rcases List.mem_cons.mp hx with h | h
    · subst h; exact (le_foldl_max ys x).1
    · exact (le_foldl_max ys y).2 x h

/-- The id allocated by utils.next_snapshot_id is fresh: its rootfs member
does not exist yet. -/
theorem next_not_mem (st : Store) :
    (Member.rootfs, next_snapshot_id (globIds st)) ∉ st.members := by
  intro h
  have hmem : next_snapshot_id (globIds st) ∈ globIds st :=
    List.mem_filterMap.mpr ⟨(Member.rootfs, next_snapshot_id (globIds st)), h, by simp⟩
  have hle := pymax_ge (globIds st) (-1) _ hmem
  simp only [next_snapshot_id] at hle
  omega

/-- Cloning all four members of a fresh destination id succeeds and yields
the expected store: four new members, one new rootfs lineage edge, four
readonly snapshot commands. -/
theorem cloneBody_fresh (st : Store) (src n : Int)
    (h1 : (Member.rootfs, n) ∉ st.members) (h2 : (Member.var, n) ∉ st.members)
    (h3 : (Member.etc, n) ∉ st.members) (h4 : (Member.boot, n) ∉ st.members) :
    cloneBody st src n =
      (Store.mk
        ((Member.boot, n) :: (Member.etc, n) :: (Member.var, n) :: (Member.rootfs, n) :: st.members)
        (st.lineage ++ [(n, src)])
        st.deployedId
        (st.trace ++
          [Event.run ["btrfs", "subvolume", "snapshot", "-r", member_path Member.rootfs src,
             member_path Member.rootfs n],
           Event.run ["btrfs", "subvolume", "snapshot", "-r", member_path Member.var src,
             member_path Member.var n],
           Event.run ["btrfs", "subvolume", "snapshot", "-r", member_path Member.etc src,
             member_path Member.etc n],
           Event.run ["btrfs", "subvolume", "snapshot", "-r", member_path Member.boot src,
             member_path Member.boot n]]),
       PyResult.ok ()) := by
  simp [cloneBody, btrfs_snapshot, seqSt, h1, h2, h3, h4, List.mem_cons]

/-- Bundle consistency is preserved when all four members of one id are
added together. -/
theorem consistent_of_members (st st2 : Store) (n : Int) (h : Consistent st)
    (hm : st2.members = (Member.boot, n) :: (Member.etc, n) :: (Member.var, n) ::
      (Member.rootfs, n) :: st.members) :
    Consistent st2 := by
  intro i
  obtain ⟨hv, he, hb⟩ := h i
  simp only [hm, List.mem_cons, Prod.mk.injEq, reduceCtorEq, false_and, false_or, true_and]
  exact ⟨by tauto, by tauto, by tauto⟩

/-- A store whose lineage just gained the edge (n, snap_id) lists n among
the children of snap_id. -/
theorem mem_get_children_of_lineage (st2 st : Store) (n snap_id : Int)
    (hl : st2.lineage = st.lineage ++ [(n, snap_id)]) :
    n ∈ get_children st2 snap_id := by
  rw [get_children, hl]
  refine List.mem_map.mpr ⟨(n, snap_id), ?_, rfl⟩
  refine List.mem_filter.mpr ⟨by simp, by simp⟩

/-- Packaged form of cloneBody_fresh: a fresh clone succeeds, adds the four
members and appends one lineage edge. -/
theorem cloneBody_fresh_ex (st : Store) (src n : Int)
    (h1 : (Member.rootfs, n) ∉ st.members) (h2 : (Member.var, n) ∉ st.members)
    (h3 : (Member.etc, n) ∉ st.members) (h4 : (Member.boot, n) ∉ st.members) :
    ∃ stA : Store, cloneBody st src n = (stA, PyResult.ok ()) ∧
      stA.members = (Member.boot, n) :: (Member.etc, n) :: (Member.var, n) ::
        (Member.rootfs, n) :: st.members ∧
      stA.lineage = st.lineage ++ [(n, src)] :=
  ⟨_, cloneBody_fresh st src n h1 h2 h3 h4, rfl, rfl⟩

/-- On any bundle-consistent store, the recursive walk of
actions._clone_recursive never finishes, whatever the step bound: the clone
of each visited node immediately registers as a new child of that node (the
child list is re-queried after the clone), so the child loop never runs out
of work. -/
theorem cloneRecursive_none :
    ∀ fuel : Nat, (∀ st id, Consistent st → cloneRecursive fuel st id = none) ∧
      (∀ st c cs, Consistent st → cloneList fuel st (c :: cs) = none) := by
  intro fuel
  induction fuel with
  | zero =>
    exact ⟨fun st id h => by simp [cloneRecursive], fun st c cs h => by simp [cloneList]⟩
  | succ f ih =>
    constructor
    · intro st id hc
      have h1 : (Member.rootfs, next_snapshot_id (globIds st)) ∉ st.members := next_not_mem st
      have h2 : (Member.var, next_snapshot_id (globIds st)) ∉ st.members :=
        fun hm => h1 ((hc _).1.mp hm)
      have h3 : (Member.etc, next_snapshot_id (globIds st)) ∉ st.members :=
        fun hm => h1 ((hc _).2.1.mp hm)
      have h4 : (Member.boot, next_snapshot_id (globIds st)) ∉ st.members :=
        fun hm => h1 ((hc _).2.2.mp hm)
      obtain ⟨stA, hbody, hmem, hlin⟩ := cloneBody_fresh_ex
        ({ st with trace := st.trace ++ [Event.acquireLock, Event.releaseLock] }) id
        (next_snapshot_id (globIds st)) h1 h2 h3 h4
      simp only [cloneRecursive, next_snapshot_id_run, hbody]
      have hcA : Consistent stA := consistent_of_members st stA _ hc hmem
      have hch : next_snapshot_id (globIds st) ∈ get_children stA id :=
        mem_get_children_of_lineage stA
          ({ st with trace := st.trace ++ [Event.acquireLock, Event.releaseLock] }) _ id hlin
      cases hg : get_children stA id with
      | nil => rw [hg] at hch; cases hch
      | cons c cs => rw [ih.2 stA c cs hcA]
    · intro st c cs hc
      simp only [cloneList, ih.1 st c hc]

/-- The two-bundle store is bundle-consistent. -/
theorem consistent_stPair : Consistent stPair := by
  intro i
  simp [stPair, bundles, bundle, List.mem_cons, Prod.mk.injEq]

/-- C3: on the actual code clone_tree copies nothing - it raises TypeError
at its `with lock():` entry and leaves every store untouched, so no
same-shape copy is ever produced; and, independently of the lock bug, its
recursive body _clone_recursive diverges even on the one-node tree rooted
at snapshot 1 of stPair (for every step bound), because the child set is
re-queried from the live store after each clone instead of being fixed at
call time. -/
theorem clone_tree_bug_eval :
    (∀ fuel st root, clone_tree fuel st root = some (st, PyResult.exc PyExc.typeError)) ∧
    (∀ fuel, cloneRecursive fuel stPair 1 = none) := by
  exact ⟨fun fuel st root => rfl, fun fuel => (cloneRecursive_none fuel).1 stPair 1 consistent_stPair⟩

/-- C9 counterexample: clone_tree does not hold the lock for its recursive
walk - it terminates immediately with TypeError, its final trace is the
initial empty trace, and in particular it contains no lock acquisition at
all. -/
theorem clone_tree_never_locks :
    clone_tree 5 stPair 1 = some (stPair, PyResult.exc PyExc.typeError) ∧
    (clone_tree 5 stPair 1).map (fun q => q.1.trace.contains Event.acquireLock) = some false := by
  exact ⟨rfl, rfl⟩

/-- C9 (amended): in actual executions no operation acquires the lock file
while the same call already holds it - the only acquisitions ever performed
are the short acquire/release pairs of utils.next_snapshot_id (clone does
one, branch two in sequence), never nested; clone_tree, deploy, gc and
base_update acquire nothing at all, terminating with TypeError at their
with-statements.  The last conjunct records that every allocation inside
the recursive walk body would acquire and release the same lock file. -/
theorem no_nested_lock_acquisition :
    (∀ ms lin dep src, noNested ((clone (Store.mk ms lin dep []) src).1.trace) = true) ∧
    (∀ ms lin dep p, noNested ((branch (Store.mk ms lin dep []) p).1.trace) = true) ∧
    (∀ ext id ms lin dep, noNested ((deploy ext id (Store.mk ms lin dep [])).1.trace) = true) ∧
    (∀ ms lin dep, noNested ((gc (Store.mk ms lin dep [])).1.trace) = true) ∧
    (∀ ext ms lin dep, noNested ((base_update ext (Store.mk ms lin dep [])).1.trace) = true) ∧
    (∀ fuel ms lin dep root,
      (clone_tree fuel (Store.mk ms lin dep []) root).map (fun q => noNested q.1.trace) =
        some true) ∧
    (∀ st, (next_snapshot_id_run st).1.trace =
      st.trace ++ [Event.acquireLock, Event.releaseLock]) := by
  exact ⟨fun ms lin dep src => rfl, fun ms lin dep p => rfl, fun ext id ms lin dep => rfl,
    fun ms lin dep => rfl, fun ext ms lin dep => rfl, fun fuel ms lin dep root => rfl,
    fun st => rfl⟩

/-- C6: ordering of the two promote steps.  For the deploy body (the code
inside the with-block): its trace always starts with the set-default
invocation, and contains the bootloader-generator invocation exactly when
set-default succeeded, after it; once set-default succeeds the store's
default pointer is id and stays id even when the generator step fails (the
failure is surfaced as SystemExit, with no rollback command); and the full
actions.deploy never emits the generator before the default change (it
emits nothing: its with-statement raises TypeError first). -/
theorem deploy_ordering :
    (∀ ext id st, (deployBody ext id st).1.trace =
      st.trace ++ (if ext (setDefaultCmd id) then
        [Event.run (setDefaultCmd id), Event.run grubMkconfigCmd]
        else [Event.run (setDefaultCmd id)])) ∧
    (∀ ext id st, (deployBody ext id st).1.deployedId =
      if ext (setDefaultCmd id) then id else st.deployedId) ∧
    (∀ ext id st, (deployBody ext id st).2 =
      if ext (setDefaultCmd id) then
        (if ext grubMkconfigCmd then PyResult.ok () else PyResult.exc (PyExc.systemExit 1))
      else PyResult.exc (PyExc.systemExit 1)) ∧
    (∀ ext id st, (deploy ext id st).1.trace = st.trace) := by
  refine ⟨?_, ?_, ?_, fun ext id st => rfl⟩ <;>
  · intro ext id st
    by_cases h1 : ext (setDefaultCmd id)
    · by_cases h2 : ext grubMkconfigCmd <;>
        simp [deployBody, utilsRunE, h1, h2, List.append_assoc]
    · simp [deployBody, utilsRunE, h1]

/-- A foldl of max over a list of elements all bounded by the accumulator
keeps the accumulator. -/
theorem foldl_max_of_le (l : List Int) : ∀ a, (∀ x ∈ l, x ≤ a) → l.foldl max a = a := by
  induction l with
  | nil => intro a h; rfl
  | cons y ys ih =>
    intro a h
    simp only [List.foldl_cons]
    rw [max_eq_left (h y (List.mem_cons_self y ys))]
    exact ih a (fun x hx => h x (List.mem_cons_of_mem y hx))

/-- Unfolding of the descending id list. -/
theorem idsDesc_succ (n : Nat) : idsDesc (n + 1) = ((n : Int)) :: idsDesc n := by
  simp [idsDesc, List.range_succ]

/-- Python max of the descending id list n-1, ..., 0 with default -1. -/
theorem pymax_idsDesc (n : Nat) : pymax (idsDesc n) (-1) = (n : Int) - 1 := by
  cases n with
  | zero => rfl
  | succ m =>
    rw [idsDesc_succ]
    simp only [pymax]
    rw [foldl_max_of_le]
    · push_cast; ring
    · intro x hx
      have hx2 : ∃ a < m, x = (a : Int) := by simpa [idsDesc] using hx
      obtain ⟨k, hkm, rfl⟩ := hx2
      exact_mod_cast hkm.le

/-- The allocation sequence yields the descending id list. -/
theorem allocSeq_eq (n : Nat) : allocSeq n = idsDesc n := by
  induction n with
  | zero => rfl
  | succ m ih =>
    rw [allocSeq, ih, idsDesc_succ]
    simp only [allocStep, next_snapshot_id, pymax_idsDesc]
    congr 1
    ring

/-- C7: utils.next_snapshot_id returns max(existing ids) + 1 when at least
one bundle exists and 0 when none exist; consequently N successive
allocation-plus-clone steps starting from the empty store allocate exactly
the ids 0, ..., N-1 (the store after N steps is the descending list
N-1, ..., 0: no duplicates, no gaps). -/
theorem next_snapshot_id_alloc :
    (∀ x xs, next_snapshot_id (x :: xs) = xs.foldl max x + 1) ∧
    next_snapshot_id [] = 0 ∧
    (∀ n : Nat, allocSeq n = (List.range n).reverse.map (fun k => (k : Int))) := by
  exact ⟨fun x xs => rfl, rfl, fun n => allocSeq_eq n⟩

/-- C8: btrfs_snapshot fails closed.  A member clone whose destination path
already exists stops with the conflict error (utils.die, SystemExit 1)
before invoking the clone primitive, leaving the store - members, lineage,
trace - exactly as it was; a member clone never removes or alters any
existing member; and cloning a whole bundle into an id whose bundle already
fully exists fails at the first member with the store unchanged. -/
theorem btrfs_snapshot_conflict :
    (∀ st m src dst, (m, dst) ∈ st.members →
      btrfs_snapshot st m src dst = (st, PyResult.exc (PyExc.systemExit 1))) ∧
    (∀ st m src dst x, x ∈ st.members → x ∈ (btrfs_snapshot st m src dst).1.members) ∧
    (∀ st src dst,
      (Member.rootfs, dst) ∈ st.members → (Member.var, dst) ∈ st.members →
      (Member.etc, dst) ∈ st.members → (Member.boot, dst) ∈ st.members →
      cloneBody st src dst = (st, PyResult.exc (PyExc.systemExit 1))) := by
  refine ⟨?_, ?_, ?_⟩
  · intro st m src dst h
    rw [btrfs_snapshot, if_pos h]
  · intro st m src dst x hx
    by_cases h : (m, dst) ∈ st.members
    · rw [btrfs_snapshot, if_pos h]; exact hx
    · rw [btrfs_snapshot, if_neg h]; exact List.mem_cons_of_mem _ hx
  · intro st src dst h1 h2 h3 h4
    rw [cloneBody, btrfs_snapshot, if_pos h1]
    rfl

/-- Witness for btrfs_snapshot_conflict at the concrete store holding
bundle 7: re-cloning member rootfs-7 and re-cloning the whole bundle 7 both
fail with the conflict error and leave the store unchanged. -/
theorem btrfs_snapshot_conflict_witness :
    ((Member.rootfs, (7 : Int)) ∈ stW.members ∧
      btrfs_snapshot stW Member.rootfs 3 7 = (stW, PyResult.exc (PyExc.systemExit 1))) ∧
    cloneBody stW 3 7 = (stW, PyResult.exc (PyExc.systemExit 1)) :=
  ⟨⟨by decide, btrfs_snapshot_conflict.1 stW Member.rootfs 3 7 (by decide)⟩,
   btrfs_snapshot_conflict.2.2 stW 3 7 (by decide) (by decide) (by decide) (by decide)⟩

/-- Every event btrfs_snapshot appends to the trace is a snapshot command
carrying the -r readonly flag. -/
theorem btrfs_snapshot_trace (st : Store) (m : Member) (src dst : Int) :
    ∀ e ∈ (btrfs_snapshot st m src dst).1.trace, e ∈ st.trace ∨ cmdHasReadonlyFlag e = true := by
  intro e he
  by_cases h : (m, dst) ∈ st.members
  · rw [btrfs_snapshot, if_pos h] at he
    exact Or.inl he
  · rw [btrfs_snapshot, if_neg h] at he
    rcases List.mem_append.mp he with h1 | h1
    · exact Or.inl h1
    · right
      rw [List.mem_singleton] at h1
      subst h1
      rfl

/-- Lifting of a new-events-are-readonly-commands invariant through
btrfs_snapshot relative to a fixed base trace. -/
theorem btrfs_snapshot_trace_mono (s : Store) (m : Member) (src dst : Int) (base : List Event)
    (hs : ∀ x ∈ s.trace, x ∈ base ∨ cmdHasReadonlyFlag x = true) :
    ∀ x ∈ (btrfs_snapshot s m src dst).1.trace, x ∈ base ∨ cmdHasReadonlyFlag x = true := by
  intro x hx
  rcases btrfs_snapshot_trace s m src dst x hx with h | h
  · exact hs x h
  · exact Or.inr h

/-- Lifting of a trace invariant through statement sequencing. -/
theorem seqSt_trace (r : Store × PyResult Unit) (f : Store → Store × PyResult Unit)
    (base : List Event)
    (hr : ∀ x ∈ r.1.trace, x ∈ base ∨ cmdHasReadonlyFlag x = true)
    (hf : ∀ s, (∀ x ∈ s.trace, x ∈ base ∨ cmdHasReadonlyFlag x = true) →
      ∀ x ∈ (f s).1.trace, x ∈ base ∨ cmdHasReadonlyFlag x = true) :
    ∀ x ∈ (seqSt r f).1.trace, x ∈ base ∨ cmdHasReadonlyFlag x = true := by
  rcases r with ⟨s, pr⟩
  cases pr with
  | ok a => exact hf s hr
  | exc e1 => exact hr

/-- C10: every bundle member the orchestrator creates is created read-only.
Conjunct one: any event btrfs_snapshot - the single member-creation routine
used by clone, clone_tree and branch - adds to the trace is its snapshot
command, which always carries the -r flag.  Conjunct two: the same holds
for the whole four-member clone body. -/
theorem snapshot_readonly_flag :
    (∀ st m src dst e, e ∈ (btrfs_snapshot st m src dst).1.trace →
      e ∈ st.trace ∨ e = Event.run ["btrfs", "subvolume", "snapshot", "-r",
        member_path m src, member_path m dst]) ∧
    (∀ st src dst e, e ∈ (cloneBody st src dst).1.trace →
      e ∈ st.trace ∨ cmdHasReadonlyFlag e = true) := by
  constructor
  · intro st m src dst e he
    by_cases h : (m, dst) ∈ st.members
    · rw [btrfs_snapshot, if_pos h] at he
      exact Or.inl he
    · rw [btrfs_snapshot, if_neg h] at he
      rcases List.mem_append.mp he with h1 | h1
      · exact Or.inl h1
      · exact Or.inr (List.mem_singleton.mp h1)
  · intro st src dst e he
    have hbase : ∀ x ∈ st.trace, x ∈ st.trace ∨ cmdHasReadonlyFlag x = true :=
      fun x hx => Or.inl hx
    refine seqSt_trace _ _ st.trace
      (btrfs_snapshot_trace_mono st Member.rootfs src dst st.trace hbase) ?_ e he
    intro s1 hs1
    refine seqSt_trace _ _ st.trace
      (btrfs_snapshot_trace_mono s1 Member.var src dst st.trace hs1) ?_
    intro s2 hs2
    refine seqSt_trace _ _ st.trace
      (btrfs_snapshot_trace_mono s2 Member.etc src dst st.trace hs2) ?_
    intro s3 hs3
    exact btrfs_snapshot_trace_mono s3 Member.boot src dst st.trace hs3

/-- Witness for snapshot_readonly_flag: the rootfs clone command from
snapshot 0 to snapshot 1 on the empty store is in the clone body's trace
and carries the -r flag. -/
theorem snapshot_readonly_flag_witness :
    (e0 ∈ (cloneBody stEmpty 0 1).1.trace) ∧
    (e0 ∈ stEmpty.trace ∨ cmdHasReadonlyFlag e0 = true) :=
  ⟨by decide, snapshot_readonly_flag.2 stEmpty 0 1 e0 (by decide)⟩
